import Mathlib

/-! Profile lookups, relationship listings and the user-id cache of `profile.go`.

A shallow embedding of `profile.go` (package `twitterscraper`).

* Go `error` values are modelled by their message (`Error := String`); `fmt.Errorf("%s", m)` is `m`.
* The network is an oracle: every `RequestAPI` call is answered as a function of the requests made
  so far and of the request itself, and is appended to a log kept in the `World`.
* Functions and types of the package that are declared in other files (`RequestAPI`, `newRequest`,
  `mapToJSONString`, `parseProfile`, `parseUsers`) are fields of `Scraper`.
* `fmt.Println` calls write to standard output only and are left out.
-/

set_option autoImplicit false

namespace TwitterScraper

/-! ## Values and maps -/

/-- Go `error`, identified with its message. -/
abbrev Error := String

/-- Dynamic values stored in `map[string]interface{}`: the Go types that occur in this file. -/
inductive GoValue where
  | string (s : String)
  | int (n : Int)
  | int64 (n : Int)
  | bool (b : Bool)
  deriving DecidableEq, Repr

/-- Go `map[string]interface{}` as an association list with distinct keys. -/
abbrev GoMap := List (String × GoValue)

/-- Map read `m[k]` (with the comma-ok flag as `Option`). -/
def GoMap.get (m : GoMap) (k : String) : Option GoValue :=
  List.lookup k m

/-- Map write `m[k] = v`. -/
def GoMap.set (m : GoMap) (k : String) (v : GoValue) : GoMap :=
  m.filter (fun p => p.1 != k) ++ [(k, v)]

/-- Go `url.Values` restricted to `Set`: one value per key. -/
abbrev Values := List (String × String)

/-- Go `url.Values.Set`. -/
def Values.Set (q : Values) (k v : String) : Values :=
  q.filter (fun p => p.1 != k) ++ [(k, v)]

/-- Go `*http.Request`: `RawQuery` holds the `url.Values` whose `Encode()` the code assigns. -/
structure Request where
  Method : String
  URL : String
  RawQuery : Values
  deriving DecidableEq, Repr

/-! ## JSON documents as `jsoniter` sees them -/

/-- A JSON document. Numbers keep their source text and composite values keep theirs (`raw`),
which is what the lazy `jsoniter.Any` of such a value returns from `ToString`. -/
inductive Json where
  | null : Json
  | bool (b : Bool) : Json
  | number (lit : String) : Json
  | string (s : String) : Json
  | array (raw : String) (items : List Json) : Json
  | object (raw : String) (fields : List (String × Json)) : Json

/-- Go `jsoniter.locateObjectField`: the first member named `target`, if the value is an object. -/
def locateObjectField : Json → String → Option Json
  | .object _ fields, target => List.lookup target fields
  | _, _ => none

/-- Go `jsoniter.Get(data, path...)` for string path elements; `none` is the invalid `Any`. -/
def jsoniter_Get : Json → List String → Option Json
  | j, [] => some j
  | j, k :: ks =>
    match locateObjectField j k with
    | none => none
    | some v => jsoniter_Get v ks

/-- Go `Any.ToString`. -/
def Any_ToString : Option Json → String
  | none => ""
  | some .null => ""
  | some (.bool true) => "true"
  | some (.bool false) => "false"
  | some (.number lit) => lit
  | some (.string s) => s
  | some (.array raw _) => raw
  | some (.object raw _) => raw

/-! ## Data model -/

/-- Go `Profile`. `Joined` is a `*time.Time`, kept as an optional Unix time. -/
structure Profile where
  Avatar : String
  Banner : String
  Biography : String
  Birthday : String
  FollowersCount : Int
  FollowingCount : Int
  FriendsCount : Int
  IsPrivate : Bool
  IsVerified : Bool
  Joined : Option Int
  LikesCount : Int
  ListedCount : Int
  Location : String
  Name : String
  PinnedTweetIDs : List String
  TweetsCount : Int
  URL : String
  UserID : String
  Username : String
  Website : String
  Sensitive : Bool
  deriving DecidableEq, Repr

/-- Modelled from the spec: the declaration of `legacyUser` is in another file. `profile.go` uses
its fields `IDStr` and `ScreenName`; the members of the wire object that belong to its other
fields are kept under their JSON names in `other`. -/
structure legacyUser where
  IDStr : String
  ScreenName : String
  other : List (String × Json)

/-- Go zero value `var legacy legacyUser`. -/
def legacyUser.zero : legacyUser :=
  { IDStr := "", ScreenName := "", other := [] }

/-- Modelled from the spec: the JSON name of `legacyUser.IDStr` (the struct tag is in another
file); the legacy payload carries its own id member, which decodes into the id field. -/
def legacyUser_IDStr_tag : String := "id_str"

/-- The JSON name of `legacyUser.ScreenName`, the member `GetProfileByUserId` reads by path. -/
def legacyUser_ScreenName_tag : String := "screen_name"

/-- Go `strings.ToLower` on one character, exact wherever the result is an ASCII letter: the
upper-case ASCII letters, U+0130 (to `i`) and U+212A (to `k`). No other character has an ASCII
lower case, so comparisons with an ASCII name are not affected by leaving the rest as they are. -/
def toLowerChar (c : Char) : Char :=
  if c.toNat = 0x130 then 'i'
  else if c.toNat = 0x212A then 'k'
  else c.toLower

/-- The field lookup of the `jsoniter` struct decoder in its default configuration, for a field
whose JSON name `tag` is in lower case: the member name itself, and failing that its lower case,
is looked up among the names of the struct. -/
def matchesTag (field tag : String) : Bool :=
  field == tag || String.mk (field.data.map toLowerChar) == tag

/-- Whether the decoder goes on to the next member after a value that is not a string was given
to a `string` field. `ReadString` has consumed the first byte of the value when it reports the
error, and the member loop goes on only if the next token is a comma: that is the case for a
value of a single byte (a one-digit number) and for no other value. -/
def resumesAfter : Json → Bool
  | .number lit => lit.length == 1
  | _ => false

/-- The member loop of the `jsoniter` struct decoder on `legacyUser`. Members absent from the
object leave their field as it was. A member of a `string` field overwrites it with the string,
or with the empty string when the value is `null` or is not a string; in the last case the loop
ends unless `resumesAfter` holds. Members of the other fields are kept under their JSON names;
the types of those fields are declared in another file and their values are taken to decode. -/
def legacyUser.decodeMembers : List (String × Json) → legacyUser → legacyUser
  | [], l => l
  | (k, v) :: rest, l =>
    if matchesTag k legacyUser_IDStr_tag then
      match v with
      | .string str => legacyUser.decodeMembers rest { l with IDStr := str }
      | .null => legacyUser.decodeMembers rest { l with IDStr := "" }
      | _ =>
        if resumesAfter v then legacyUser.decodeMembers rest { l with IDStr := "" }
        else { l with IDStr := "" }
    else if matchesTag k legacyUser_ScreenName_tag then
      match v with
      | .string str => legacyUser.decodeMembers rest { l with ScreenName := str }
      | .null => legacyUser.decodeMembers rest { l with ScreenName := "" }
      | _ =>
        if resumesAfter v then legacyUser.decodeMembers rest { l with ScreenName := "" }
        else { l with ScreenName := "" }
    else
      legacyUser.decodeMembers rest { l with other := l.other.filter (fun p => p.1 != k) ++ [(k, v)] }

/-- Go `Any.ToVal(&legacy)`: decodes the located object over the current contents of `legacy`.
(`GetProfileByUserId` reaches it only after it has found a member of that object.) -/
def Any_ToVal_legacyUser (a : Option Json) (legacy : legacyUser) : legacyUser :=
  match a with
  | some (.object _ fields) => legacyUser.decodeMembers fields legacy
  | _ => legacy

/-- Go `user.Errors` element. -/
structure user_Error where
  Message : String
  deriving DecidableEq, Repr

/-- Go `user.Data.User`. -/
structure user_Data_User where
  RestID : String
  Legacy : legacyUser

/-- Go `user.Data`. -/
structure user_Data where
  User : user_Data_User

/-- Go `user`: the decoded response of `UserByScreenName`. -/
structure user where
  Data : user_Data
  Errors : List user_Error

/-- Modelled from the spec: the declaration of `timelineV2` is in another file; the decoded
timeline response is kept as its JSON document. -/
structure timelineV2 where
  body : Json

/-! ## Collaborators and state -/

/-- The receiver `*Scraper` together with the package functions declared in other files. The
three `RequestAPI_*` fields are `RequestAPI(req, target)` at the three target types used in this
file; each gets the requests made so far and the request. -/
structure Scraper where
  newRequest : String → String → Except Error Request
  RequestAPI_user : List Request → Request → Except Error user
  RequestAPI_bytes : List Request → Request → Except Error Json
  RequestAPI_timeline : List Request → Request → Except Error timelineV2
  mapToJSONString : GoMap → String
  parseProfile : legacyUser → Profile
  parseUsers : timelineV2 → List Profile × String

/-- The mutable state: the package variable `cacheIDs` (a `sync.Map` from screen name to user id)
and the log of requests handed to the transport. -/
structure World where
  cacheIDs : List (String × String)
  requests : List Request

/-- Go `sync.Map.Load`. -/
def syncMap_Load (m : List (String × String)) (k : String) : Option String :=
  List.lookup k m

/-- Go `sync.Map.Store`. -/
def syncMap_Store (m : List (String × String)) (k v : String) : List (String × String) :=
  (k, v) :: m.filter (fun p => p.1 != k)

/-- The transport is called with `req`: the call is logged. -/
def World.called (w : World) (req : Request) : World :=
  { w with requests := w.requests ++ [req] }

/-! ## `net/http` and `strconv` -/

/-- Go `httpguts.IsTokenRune` on the characters of a method name. -/
def isTokenChar (c : Char) : Bool :=
  c.isAlphanum || "!#$%&*+-.^_|~".data.contains c || c = Char.ofNat 39 || c = Char.ofNat 96

/-- Go `http.validMethod`. -/
def validMethod (method : String) : Bool :=
  decide (method.data.length > 0) && method.data.all isTokenChar

/-- Go `url.stringContainsCTLByte`. -/
def stringContainsCTLByte (s : String) : Bool :=
  s.data.any (fun c => decide (c.toNat < 32) || decide (c.toNat = 127))

/-- Go `http.NewRequest(method, url, nil)`: the method must be a token and the URL must parse.
Of the URL parse errors the control-character check is modelled; the others concern malformed
escapes, hosts and ports, which the constant URLs of this file do not contain. -/
def http_NewRequest (method url : String) : Except Error Request :=
  if !validMethod method then .error "net/http: invalid method"
  else if stringContainsCTLByte url then .error "net/url: invalid control character in URL"
  else .ok { Method := method, URL := url, RawQuery := [] }

/-- The loop of Go `strconv.ParseUint(s, 10, 64)`: the value and whether an error was returned
(a non-digit gives 0, an overflow gives the largest `uint64`). -/
def ParseUint_loop : List Char → Nat → Nat × Bool
  | [], n => (n, false)
  | c :: cs, n =>
    if 48 ≤ c.toNat ∧ c.toNat ≤ 57 then
      if n ≥ (2 ^ 64 - 1) / 10 + 1 then (2 ^ 64 - 1, true)
      else if n * 10 + (c.toNat - 48) > 2 ^ 64 - 1 then (2 ^ 64 - 1, true)
      else ParseUint_loop cs (n * 10 + (c.toNat - 48))
    else (0, true)

/-- Go `strconv.ParseUint(s, 10, 64)`. -/
def ParseUint (s : List Char) : Nat × Bool :=
  match s with
  | [] => (0, true)
  | _ => ParseUint_loop s 0

/-- Go `strconv.ParseInt(s, 10, 64)`, the returned value only (the caller drops the error). -/
def ParseInt (s : String) : Int :=
  match s.data with
  | [] => 0
  | c :: cs =>
    let neg := c = '-'
    let rest := if c = '+' ∨ c = '-' then cs else c :: cs
    let r := ParseUint rest
    if r.2 ∧ r.1 ≠ 2 ^ 64 - 1 then 0
    else if ¬ neg ∧ r.1 ≥ 2 ^ 63 then 2 ^ 63 - 1
    else if neg ∧ r.1 > 2 ^ 63 then -(2 ^ 63)
    else if neg then -(r.1 : Int) else (r.1 : Int)

/-! ## `GetProfile` -/

/-- Lines 57-69 of `GetProfile`: the request for `UserByScreenName`. -/
def GetProfile_request (s : Scraper) (username : String) : Except Error Request :=
  match http_NewRequest "GET" "https://api.twitter.com/graphql/4S2ihIKfF3xhp-ENxvUAfQ/UserByScreenName" with
  | .error err => .error err
  | .ok req =>
    let vars : GoMap :=
      [("screen_name", .string username),
       ("withHighlightedLabel", .bool true)]
    let query : Values := Values.Set [] "variables" (s.mapToJSONString vars)
    .ok { req with RawQuery := query }

/-- Lines 76-88 of `GetProfile`: the checks on the decoded response, giving the error returned
or the legacy record that is handed to `parseProfile`. -/
def GetProfile_legacy (username : String) (jsn : user) : Except Error legacyUser :=
  match jsn.Errors with
  | e :: _ => .error e.Message
  | [] =>
    if jsn.Data.User.RestID = "" then .error "rest_id not found"
    else
      let Legacy : legacyUser := { jsn.Data.User.Legacy with IDStr := jsn.Data.User.RestID }
      if Legacy.ScreenName = "" then
        .error ("either @" ++ username ++ " does not exist or is private")
      else .ok Legacy

/-- Go `Scraper.GetProfile`. -/
def GetProfile (s : Scraper) (username : String) (w : World) : Except Error Profile × World :=
  match GetProfile_request s username with
  | .error err => (.error err, w)
  | .ok req =>
    match s.RequestAPI_user w.requests req with
    | .error err => (.error err, w.called req)
    | .ok jsn =>
      match GetProfile_legacy username jsn with
      | .error err => (.error err, w.called req)
      | .ok legacy => (.ok (s.parseProfile legacy), w.called req)

/-! ## `GetProfileByUserId` -/

/-- Go `USER_FEATURES`. -/
def USER_FEATURES : GoMap :=
  [("hidden_profile_likes_enabled", .bool true),
   ("hidden_profile_subscriptions_enabled", .bool true),
   ("responsive_web_graphql_exclude_directive_enabled", .bool true),
   ("verified_phone_label_enabled", .bool false),
   ("subscriptions_verification_info_is_identity_verified_enabled", .bool true),
   ("subscriptions_verification_info_verified_since_enabled", .bool true),
   ("highlights_tweets_tab_ui_enabled", .bool true),
   ("responsive_web_twitter_article_notes_tab_enabled", .bool false),
   ("creator_subscriptions_tweet_preview_api_enabled", .bool true),
   ("responsive_web_graphql_skip_user_profile_image_extensions_enabled", .bool false),
   ("responsive_web_graphql_timeline_navigation_enabled", .bool true)]

/-- Lines 108-121 of `GetProfileByUserId`: the request for `UserByRestId`. -/
def GetProfileByUserId_request (s : Scraper) (userId : String) : Except Error Request :=
  match http_NewRequest "GET" "https://twitter.com/i/api/graphql/tD8zKvQzwY3kdx5yz6YmOw/UserByRestId" with
  | .error err => .error err
  | .ok req =>
    let vars : GoMap :=
      [("userId", .string userId),
       ("withSafetyModeUserFields", .bool true)]
    let query : Values := Values.Set [] "variables" (s.mapToJSONString vars)
    let query : Values := Values.Set query "features" (s.mapToJSONString USER_FEATURES)
    .ok { req with RawQuery := query }

/-- Lines 129-144 of `GetProfileByUserId`: the checks on the response body, giving the error
returned or the legacy record that is handed to `parseProfile`. -/
def GetProfileByUserId_legacy (userId : String) (result : Json) : Except Error legacyUser :=
  let RestID := Any_ToString (jsoniter_Get result ["data", "user", "result", "rest_id"])
  if RestID = "" then .error "rest_id not found"
  else
    let ScreenName :=
      Any_ToString (jsoniter_Get result ["data", "user", "result", "legacy", "screen_name"])
    if ScreenName = "" then
      .error ("either @" ++ userId ++ " does not exist or is private")
    else
      let legacy : legacyUser := { legacyUser.zero with IDStr := RestID }
      let legacy := Any_ToVal_legacyUser (jsoniter_Get result ["data", "user", "result", "legacy"]) legacy
      if legacy.ScreenName = "" then
        .error ("either @" ++ userId ++ " does not exist or is private")
      else .ok legacy

/-- Go `Scraper.GetProfileByUserId`. -/
def GetProfileByUserId (s : Scraper) (userId : String) (w : World) : Except Error Profile × World :=
  match GetProfileByUserId_request s userId with
  | .error err => (.error err, w)
  | .ok req =>
    match s.RequestAPI_bytes w.requests req with
    | .error err => (.error err, w.called req)
    | .ok result =>
      match GetProfileByUserId_legacy userId result with
      | .error err => (.error err, w.called req)
      | .ok legacy => (.ok (s.parseProfile legacy), w.called req)

/-! ## `GetFansByUserID` and `GetFollowingByUserID` -/

/-- The `features` map literal, the same in `GetFansByUserID` and `GetFollowingByUserID`. -/
def timeline_features : GoMap :=
  [("responsive_web_graphql_exclude_directive_enabled", .bool true),
   ("verified_phone_label_enabled", .bool false),
   ("creator_subscriptions_tweet_preview_api_enabled", .bool true),
   ("responsive_web_graphql_timeline_navigation_enabled", .bool true),
   ("responsive_web_graphql_skip_user_profile_image_extensions_enabled", .bool false),
   ("c9s_tweet_anatomy_moderator_badge_enabled", .bool true),
   ("tweetypie_unmention_optimization_enabled", .bool true),
   ("responsive_web_edit_tweet_api_enabled", .bool true),
   ("graphql_is_translatable_rweb_tweet_is_translatable_enabled", .bool true),
   ("view_counts_everywhere_api_enabled", .bool true),
   ("longform_notetweets_consumption_enabled", .bool true),
   ("responsive_web_twitter_article_tweet_consumption_enabled", .bool false),
   ("tweet_awards_web_tipping_enabled", .bool false),
   ("freedom_of_speech_not_reach_fetch_enabled", .bool true),
   ("standardized_nudges_misinfo", .bool true),
   ("tweet_with_visibility_results_prefer_gql_limited_actions_policy_enabled", .bool true),
   ("rweb_video_timestamps_enabled", .bool true),
   ("longform_notetweets_rich_text_read_enabled", .bool true),
   ("longform_notetweets_inline_media_enabled", .bool true),
   ("responsive_web_media_download_video_enabled", .bool false),
   ("responsive_web_enhance_cards_enabled", .bool false)]

/-- Lines 150-152, 159-165 and 190-192 of `GetFansByUserID`: the `variables` map as it is when
it is encoded into the query. -/
def GetFansByUserID_variables (userId : String) (maxTweetsNbr : Int) (cursor : String) : GoMap :=
  let maxTweetsNbr := if maxTweetsNbr > 200 then 200 else maxTweetsNbr
  let vars : GoMap :=
    [("userId", .string userId),
     ("count", .int maxTweetsNbr),
     ("includePromotedContent", .bool false),
     ("withQuickPromoteEligibilityTweetFields", .bool false)]
  if cursor ≠ "" then GoMap.set vars "cursor" (.string cursor) else vars

/-- Lines 154-197 of `GetFansByUserID`: the request for `Followers`. -/
def GetFansByUserID_request (s : Scraper) (userId : String) (maxTweetsNbr : Int)
    (cursor : String) : Except Error Request :=
  match s.newRequest "GET" "https://twitter.com/i/api/graphql/3_7xfjmh897x8h_n6QBqTA/Followers" with
  | .error err => .error err
  | .ok req =>
    let query : Values :=
      Values.Set [] "variables" (s.mapToJSONString (GetFansByUserID_variables userId maxTweetsNbr cursor))
    let query : Values := Values.Set query "features" (s.mapToJSONString timeline_features)
    .ok { req with RawQuery := query }

/-- Go `Scraper.GetFansByUserID`. -/
def GetFansByUserID (s : Scraper) (userId : String) (maxTweetsNbr : Int) (cursor : String)
    (w : World) : Except Error (List Profile × String) × World :=
  match GetFansByUserID_request s userId maxTweetsNbr cursor with
  | .error err => (.error err, w)
  | .ok req =>
    match s.RequestAPI_timeline w.requests req with
    | .error err => (.error err, w.called req)
    | .ok timeline => (.ok (s.parseUsers timeline), w.called req)

/-- Lines 214-216, 223-229 and 255-258 of `GetFollowingByUserID`: the `variables` map as it is
when it is encoded into the query. -/
def GetFollowingByUserID_variables (userId : String) (maxTweetsNbr : Int) (cursor : String) : GoMap :=
  let maxTweetsNbr := if maxTweetsNbr > 200 then 200 else maxTweetsNbr
  let vars : GoMap :=
    [("userId", .string userId),
     ("count", .int maxTweetsNbr),
     ("includePromotedContent", .bool false),
     ("withV2Timeline", .bool true)]
  let cnumber := ParseInt cursor
  if cursor ≠ "" then GoMap.set vars "cursor" (.int64 cnumber) else vars

/-- Lines 218-263 of `GetFollowingByUserID`: the request for `Following`. -/
def GetFollowingByUserID_request (s : Scraper) (userId : String) (maxTweetsNbr : Int)
    (cursor : String) : Except Error Request :=
  match s.newRequest "GET" "https://twitter.com/i/api/graphql/g5P4cbXR4ta4oCeE7y2vLQ/Following" with
  | .error err => .error err
  | .ok req =>
    let query : Values :=
      Values.Set [] "variables"
        (s.mapToJSONString (GetFollowingByUserID_variables userId maxTweetsNbr cursor))
    let query : Values := Values.Set query "features" (s.mapToJSONString timeline_features)
    .ok { req with RawQuery := query }

/-- Go `Scraper.GetFollowingByUserID`. -/
def GetFollowingByUserID (s : Scraper) (userId : String) (maxTweetsNbr : Int) (cursor : String)
    (w : World) : Except Error (List Profile × String) × World :=
  match GetFollowingByUserID_request s userId maxTweetsNbr cursor with
  | .error err => (.error err, w)
  | .ok req =>
    match s.RequestAPI_timeline w.requests req with
    | .error err => (.error err, w.called req)
    | .ok timeline => (.ok (s.parseUsers timeline), w.called req)

/-! ## `GetUserIDByScreenName` -/

/-- Go `Scraper.GetUserIDByScreenName`. -/
def GetUserIDByScreenName (s : Scraper) (screenName : String) (w : World) :
    Except Error String × World :=
  match syncMap_Load w.cacheIDs screenName with
  | some id => (.ok id, w)
  | none =>
    match GetProfile s screenName w with
    | (.error err, w1) => (.error err, w1)
    | (.ok profile, w1) =>
      (.ok profile.UserID, { w1 with cacheIDs := syncMap_Store w1.cacheIDs screenName profile.UserID })

/-! ## Reading a raw response the way the specification describes it -/

/-- A member of the raw response counts as missing or empty when the path does not lead to a
value, or leads to `null` or to the empty string. -/
def isMissingOrEmpty : Option Json → Bool
  | none => true
  | some .null => true
  | some (.string s) => s == ""
  | _ => false

/-- The entries of the `errors` array of a raw response (none when there is no such array). -/
def upstreamErrors (result : Json) : List Json :=
  match jsoniter_Get result ["errors"] with
  | some (.array _ items) => items
  | _ => []

/-! ## Concrete collaborators and responses used in the examples -/

/-- A `parseProfile` that maps the two fields `profile.go` itself reads. -/
def exampleParseProfile (l : legacyUser) : Profile :=
  { Avatar := "", Banner := "", Biography := "", Birthday := "", FollowersCount := 0,
    FollowingCount := 0, FriendsCount := 0, IsPrivate := false, IsVerified := false,
    Joined := none, LikesCount := 0, ListedCount := 0, Location := "", Name := "",
    PinnedTweetIDs := [], TweetsCount := 0, URL := "", UserID := l.IDStr,
    Username := l.ScreenName, Website := "", Sensitive := false }

/-- A scraper whose transport fails on its first call and afterwards always delivers `jsn`,
`result` and an empty timeline. -/
def exampleScraper (jsn : user) (result : Json) : Scraper :=
  { newRequest := http_NewRequest
    RequestAPI_user := fun done _ => if done.length = 0 then .error "timeout" else .ok jsn
    RequestAPI_bytes := fun done _ => if done.length = 0 then .error "timeout" else .ok result
    RequestAPI_timeline := fun done _ =>
      if done.length = 0 then .error "timeout" else .ok { body := .null }
    mapToJSONString := fun m => String.intercalate "," (m.map Prod.fst)
    parseProfile := exampleParseProfile
    parseUsers := fun _ => ([], "") }

/-- A state with an empty cache in which no request has been made. -/
def freshWorld : World :=
  { cacheIDs := [], requests := [] }

/-- A state with an empty cache in which one request has already been made. -/
def usedWorld : World :=
  { cacheIDs := [], requests := [{ Method := "GET", URL := "https://twitter.com/", RawQuery := [] }] }

/-- A decoded `UserByScreenName` response. -/
def exampleUser (RestID IDStr ScreenName : String) (Errors : List user_Error) : user :=
  { Data := { User := { RestID := RestID,
                        Legacy := { IDStr := IDStr, ScreenName := ScreenName, other := [] } } },
    Errors := Errors }

/-- Source text of the legacy object of `exampleResult`. -/
def exampleLegacyRaw (IDStr ScreenName : String) : String :=
  "\x7b\"id_str\":\"" ++ IDStr ++ "\",\"screen_name\":\"" ++ ScreenName ++ "\"\x7d"

/-- Source text of the `result` object of `exampleResult`. -/
def exampleResultRaw (RestID IDStr ScreenName : String) : String :=
  "\x7b\"rest_id\":\"" ++ RestID ++ "\",\"legacy\":" ++ exampleLegacyRaw IDStr ScreenName ++ "\x7d"

/-- Source text of the `errors` array of `exampleResult`. -/
def exampleErrorsRaw (msgs : List String) : String :=
  "[" ++ String.intercalate "," (msgs.map (fun m => "\x7b\"message\":\"" ++ m ++ "\"\x7d")) ++ "]"

/-- A raw `UserByRestId` response: an `errors` array with the given messages, followed by
`data.user.result` with a `rest_id` and a legacy object holding `id_str` and `screen_name`. -/
def exampleResult (msgs : List String) (RestID IDStr ScreenName : String) : Json :=
  .object
    ("\x7b\"errors\":" ++ exampleErrorsRaw msgs ++ ",\"data\":\x7b\"user\":\x7b\"result\":"
      ++ exampleResultRaw RestID IDStr ScreenName ++ "\x7d\x7d\x7d")
    [("errors", .array (exampleErrorsRaw msgs)
        (msgs.map (fun m => .object ("\x7b\"message\":\"" ++ m ++ "\"\x7d") [("message", .string m)]))),
     ("data", .object ("\x7b\"user\":\x7b\"result\":" ++ exampleResultRaw RestID IDStr ScreenName ++ "\x7d\x7d")
        [("user", .object ("\x7b\"result\":" ++ exampleResultRaw RestID IDStr ScreenName ++ "\x7d")
          [("result", .object (exampleResultRaw RestID IDStr ScreenName)
            [("rest_id", .string RestID),
             ("legacy", .object (exampleLegacyRaw IDStr ScreenName)
                [("id_str", .string IDStr), ("screen_name", .string ScreenName)])])])])]

/-! ## Auxiliary facts -/

theorem GetProfile_request_eq (s : Scraper) (username : String) :
    GetProfile_request s username =
      .ok { Method := "GET",
            URL := "https://api.twitter.com/graphql/4S2ihIKfF3xhp-ENxvUAfQ/UserByScreenName",
            RawQuery := [("variables", s.mapToJSONString
              [("screen_name", .string username), ("withHighlightedLabel", .bool true)])] } :=
  rfl

theorem GetProfile_result (s : Scraper) (username : String) (w : World) (req : Request)
    (jsn : user) (hreq : GetProfile_request s username = .ok req)
    (hresp : s.RequestAPI_user w.requests req = .ok jsn) :
    (GetProfile s username w).1 = (GetProfile_legacy username jsn).map s.parseProfile := by
  unfold GetProfile
  rw [hreq]
  simp only [hresp]
  cases GetProfile_legacy username jsn <;> rfl

theorem GetProfileByUserId_result (s : Scraper) (userId : String) (w : World) (req : Request)
    (result : Json) (hreq : GetProfileByUserId_request s userId = .ok req)
    (hresp : s.RequestAPI_bytes w.requests req = .ok result) :
    (GetProfileByUserId s userId w).1 =
      (GetProfileByUserId_legacy userId result).map s.parseProfile := by
  unfold GetProfileByUserId
  rw [hreq]
  simp only [hresp]
  cases GetProfileByUserId_legacy userId result <;> rfl

theorem GetProfile_world (s : Scraper) (username : String) (w : World) :
    ∃ req, GetProfile_request s username = .ok req ∧
      (GetProfile s username w).2 = w.called req := by
  refine ⟨_, GetProfile_request_eq s username, ?_⟩
  unfold GetProfile
  rw [GetProfile_request_eq]
  simp only
  split
  · rfl
  · split <;> rfl

theorem isMissingOrEmpty_ToString (a : Option Json) (h : isMissingOrEmpty a = true) :
    Any_ToString a = "" := by
  match a, h with
  | none, _ => rfl
  | some .null, _ => rfl
  | some (.string s), h =>
    simp only [isMissingOrEmpty, beq_iff_eq] at h
    simp [Any_ToString, h]

theorem syncMap_Load_Store (m : List (String × String)) (k v : String) :
    syncMap_Load (syncMap_Store m k v) k = some v := by
  simp [syncMap_Load, syncMap_Store, List.lookup]

theorem GetFansByUserID_request_query (s : Scraper) (userId cursor : String) (n : Int)
    (req : Request) (h : GetFansByUserID_request s userId n cursor = .ok req) :
    List.lookup "variables" req.RawQuery =
      some (s.mapToJSONString (GetFansByUserID_variables userId n cursor)) ∧
    (∀ w, (GetFansByUserID s userId n cursor w).2 = w.called req) := by
  constructor
  · unfold GetFansByUserID_request at h
    split at h
    · simp at h
    · simp only [Except.ok.injEq] at h
      subst h
      simp [Values.Set, List.lookup]
  · intro w
    unfold GetFansByUserID
    rw [h]
    simp only
    split <;> rfl

theorem GetFollowingByUserID_request_query (s : Scraper) (userId cursor : String) (n : Int)
    (req : Request) (h : GetFollowingByUserID_request s userId n cursor = .ok req) :
    List.lookup "variables" req.RawQuery =
      some (s.mapToJSONString (GetFollowingByUserID_variables userId n cursor)) ∧
    (∀ w, (GetFollowingByUserID s userId n cursor w).2 = w.called req) := by
  constructor
  · unfold GetFollowingByUserID_request at h
    split at h
    · simp at h
    · simp only [Except.ok.injEq] at h
      subst h
      simp [Values.Set, List.lookup]
  · intro w
    unfold GetFollowingByUserID
    rw [h]
    simp only
    split <;> rfl

theorem GetFansByUserID_cursor_verbatim (userId cursor : String) (n : Int) (hc : cursor ≠ "") :
    (GetFansByUserID_variables userId n cursor).get "cursor" = some (.string cursor) := by
  simp [GetFansByUserID_variables, GoMap.get, GoMap.set, List.lookup, hc]

theorem GetFollowingByUserID_cursor_parsed (userId cursor : String) (n : Int) (hc : cursor ≠ "") :
    (GetFollowingByUserID_variables userId n cursor).get "cursor" =
      some (.int64 (ParseInt cursor)) := by
  simp [GetFollowingByUserID_variables, GoMap.get, GoMap.set, List.lookup, hc]

theorem GetProfile_legacy_IDStr (username : String) (jsn : user) (l : legacyUser)
    (h : GetProfile_legacy username jsn = .ok l) : l.IDStr = jsn.Data.User.RestID := by
  unfold GetProfile_legacy at h
  split at h
  · simp at h
  · split at h
    · simp at h
    · simp only at h
      split at h
      · simp at h
      · simp only [Except.ok.injEq] at h
        rw [← h]

/-! ## The claims -/

/-- C1: when the transport delivers a response without error, the response carries no upstream
errors and its `rest_id` is empty or missing, `GetProfile` fails with `rest_id not found`, and
so does `GetProfileByUserId` (whatever the `errors` member holds); neither returns a profile.
Each function is taken on its own, under hypotheses about its own response only. -/
theorem missing_rest_id_not_found (s : Scraper) (w : World) :
    (∀ (username : String) (req : Request) (jsn : user),
      GetProfile_request s username = .ok req →
      s.RequestAPI_user w.requests req = .ok jsn →
      jsn.Errors = [] →
      jsn.Data.User.RestID = "" →
      (GetProfile s username w).1 = .error "rest_id not found") ∧
    (∀ (userId : String) (req : Request) (result : Json),
      GetProfileByUserId_request s userId = .ok req →
      s.RequestAPI_bytes w.requests req = .ok result →
      isMissingOrEmpty (jsoniter_Get result ["data", "user", "result", "rest_id"]) = true →
      (GetProfileByUserId s userId w).1 = .error "rest_id not found") := by
  constructor
  · intro username req jsn hreq hresp hnoerr hrest
    rw [GetProfile_result s username w req jsn hreq hresp]
    simp [GetProfile_legacy, hnoerr, hrest, Except.map]
  · intro userId req result hreq hresp hrest
    rw [GetProfileByUserId_result s userId w req result hreq hresp]
    simp [GetProfileByUserId_legacy, isMissingOrEmpty_ToString _ hrest, Except.map]

theorem missing_rest_id_not_found_witness :
    (GetProfile (exampleScraper (exampleUser "" "" "alice" []) (exampleResult [] "42" "42" "bob"))
        "alice" usedWorld).1 = .error "rest_id not found" ∧
    (GetProfileByUserId (exampleScraper (exampleUser "42" "" "alice" []) (exampleResult [] "" "" "bob"))
        "7" usedWorld).1 = .error "rest_id not found" :=
  ⟨(missing_rest_id_not_found
      (exampleScraper (exampleUser "" "" "alice" []) (exampleResult [] "42" "42" "bob"))
      usedWorld).1 "alice" _ (exampleUser "" "" "alice" []) rfl rfl rfl rfl,
   (missing_rest_id_not_found
      (exampleScraper (exampleUser "42" "" "alice" []) (exampleResult [] "" "" "bob"))
      usedWorld).2 "7" _ (exampleResult [] "" "" "bob") rfl rfl rfl⟩

/-- C2: when the response has no upstream errors and a non-empty `rest_id` but an empty (or
missing) legacy `screen_name`, `GetProfile x` fails with `either @x does not exist or is
private`, and so does `GetProfileByUserId x`, where `x` is the identifier that was requested and
not a value of the response. Each function is taken on its own, under hypotheses about its own
response only. -/
theorem empty_screen_name_private_or_nonexistent (s : Scraper) (w : World) :
    (∀ (username : String) (req : Request) (jsn : user),
      GetProfile_request s username = .ok req →
      s.RequestAPI_user w.requests req = .ok jsn →
      jsn.Errors = [] →
      jsn.Data.User.RestID ≠ "" →
      jsn.Data.User.Legacy.ScreenName = "" →
      (GetProfile s username w).1 =
        .error ("either @" ++ username ++ " does not exist or is private")) ∧
    (∀ (userId : String) (req : Request) (result : Json),
      GetProfileByUserId_request s userId = .ok req →
      s.RequestAPI_bytes w.requests req = .ok result →
      Any_ToString (jsoniter_Get result ["data", "user", "result", "rest_id"]) ≠ "" →
      isMissingOrEmpty
        (jsoniter_Get result ["data", "user", "result", "legacy", "screen_name"]) = true →
      (GetProfileByUserId s userId w).1 =
        .error ("either @" ++ userId ++ " does not exist or is private")) := by
  constructor
  · intro username req jsn hreq hresp hnoerr hrest hname
    rw [GetProfile_result s username w req jsn hreq hresp]
    simp [GetProfile_legacy, hnoerr, hrest, hname, Except.map]
  · intro userId req result hreq hresp hrest hname
    rw [GetProfileByUserId_result s userId w req result hreq hresp]
    simp [GetProfileByUserId_legacy, hrest, isMissingOrEmpty_ToString _ hname, Except.map]

theorem empty_screen_name_private_or_nonexistent_witness :
    (GetProfile (exampleScraper (exampleUser "42" "99" "" []) (exampleResult [] "42" "42" "bob"))
        "alice" usedWorld).1 = .error "either @alice does not exist or is private" ∧
    (GetProfileByUserId (exampleScraper (exampleUser "42" "42" "alice" []) (exampleResult [] "42" "99" ""))
        "7" usedWorld).1 = .error "either @7 does not exist or is private" :=
  ⟨(empty_screen_name_private_or_nonexistent
      (exampleScraper (exampleUser "42" "99" "" []) (exampleResult [] "42" "42" "bob"))
      usedWorld).1 "alice" _ (exampleUser "42" "99" "" []) rfl rfl rfl (by decide) rfl,
   (empty_screen_name_private_or_nonexistent
      (exampleScraper (exampleUser "42" "42" "alice" []) (exampleResult [] "42" "99" ""))
      usedWorld).2 "7" _ (exampleResult [] "42" "99" "") rfl rfl (by decide) rfl⟩

/-- C3: at a response with one `errors` entry (`rate limit exceeded`) next to a valid `rest_id`
and `screen_name`, `GetProfileByUserId` returns the parsed profile instead of failing with that
message, while `GetProfile` at the corresponding decoded response fails with it. -/
theorem GetProfileByUserId_ignores_upstream_errors :
    upstreamErrors (exampleResult ["rate limit exceeded"] "42" "42" "alice") =
      [.object "\x7b\"message\":\"rate limit exceeded\"\x7d"
        [("message", .string "rate limit exceeded")]] ∧
    GetProfileByUserId_legacy "42" (exampleResult ["rate limit exceeded"] "42" "42" "alice") =
      .ok { IDStr := "42", ScreenName := "alice", other := [] } ∧
    (GetProfileByUserId
        (exampleScraper (exampleUser "42" "42" "alice" [⟨"rate limit exceeded"⟩])
          (exampleResult ["rate limit exceeded"] "42" "42" "alice"))
        "42" usedWorld).1 =
      .ok (exampleParseProfile { IDStr := "42", ScreenName := "alice", other := [] }) ∧
    (GetProfile
        (exampleScraper (exampleUser "42" "42" "alice" [⟨"rate limit exceeded"⟩])
          (exampleResult ["rate limit exceeded"] "42" "42" "alice"))
        "alice" usedWorld).1 = .error "rate limit exceeded" :=
  ⟨rfl, rfl, rfl, rfl⟩

/-- C4: when the response delivered to `GetProfile` has a non-empty `errors` array, `GetProfile`
fails with the message of the first entry, and it does so whatever the `data` part of the
response holds (`rest_id` and `screen_name` empty or present). -/
theorem GetProfile_upstream_error_first (s : Scraper) (w : World) (username : String)
    (req : Request) (jsn : user) (e : user_Error) (es : List user_Error)
    (hreq : GetProfile_request s username = .ok req)
    (hresp : s.RequestAPI_user w.requests req = .ok jsn)
    (herr : jsn.Errors = e :: es) :
    (GetProfile s username w).1 = .error e.Message ∧
    ∀ d : user_Data, GetProfile_legacy username { jsn with Data := d } = .error e.Message := by
  constructor
  · rw [GetProfile_result s username w req jsn hreq hresp]
    simp [GetProfile_legacy, herr, Except.map]
  · intro d
    simp [GetProfile_legacy, herr]

theorem GetProfile_upstream_error_first_witness :
    (GetProfile
        (exampleScraper
          (exampleUser "42" "42" "alice" [⟨"rate limit exceeded"⟩, ⟨"over capacity"⟩]) .null)
        "alice" usedWorld).1 = .error "rate limit exceeded" ∧
    ∀ d : user_Data,
      GetProfile_legacy "alice"
        { exampleUser "42" "42" "alice" [⟨"rate limit exceeded"⟩, ⟨"over capacity"⟩] with
          Data := d } = .error "rate limit exceeded" :=
  GetProfile_upstream_error_first
    (exampleScraper (exampleUser "42" "42" "alice" [⟨"rate limit exceeded"⟩, ⟨"over capacity"⟩]) .null)
    usedWorld "alice" _
    (exampleUser "42" "42" "alice" [⟨"rate limit exceeded"⟩, ⟨"over capacity"⟩])
    ⟨"rate limit exceeded"⟩ [⟨"over capacity"⟩] rfl rfl rfl

/-- C5: for every requested page size `n`, whenever `newRequest` gives a request, the request
that `GetFansByUserID` (and likewise `GetFollowingByUserID`) hands to the transport carries as
its `variables` parameter the encoding of a map whose `count` entry is the integer `min n 200`. -/
theorem count_is_min_200 (s : Scraper) (userId cursor : String) (n : Int) (w : World) :
    (∀ req0 : Request,
      s.newRequest "GET" "https://twitter.com/i/api/graphql/3_7xfjmh897x8h_n6QBqTA/Followers" =
        .ok req0 →
      ∃ (req : Request) (vars : GoMap),
        (GetFansByUserID s userId n cursor w).2.requests = w.requests ++ [req] ∧
        req.RawQuery = [("variables", s.mapToJSONString vars),
                        ("features", s.mapToJSONString timeline_features)] ∧
        vars = GetFansByUserID_variables userId n cursor ∧
        vars.get "count" = some (.int (min n 200))) ∧
    (∀ req0 : Request,
      s.newRequest "GET" "https://twitter.com/i/api/graphql/g5P4cbXR4ta4oCeE7y2vLQ/Following" =
        .ok req0 →
      ∃ (req : Request) (vars : GoMap),
        (GetFollowingByUserID s userId n cursor w).2.requests = w.requests ++ [req] ∧
        req.RawQuery = [("variables", s.mapToJSONString vars),
                        ("features", s.mapToJSONString timeline_features)] ∧
        vars = GetFollowingByUserID_variables userId n cursor ∧
        vars.get "count" = some (.int (min n 200))) := by
  have hmin : (if n > 200 then 200 else n) = min n 200 := by
    split <;> omega
  constructor
  · intro req0 h0
    have hreq : GetFansByUserID_request s userId n cursor = .ok
        { req0 with RawQuery :=
            [("variables", s.mapToJSONString (GetFansByUserID_variables userId n cursor)),
             ("features", s.mapToJSONString timeline_features)] } := by
      simp [GetFansByUserID_request, h0, Values.Set]
    refine ⟨{ req0 with RawQuery :=
        [("variables", s.mapToJSONString (GetFansByUserID_variables userId n cursor)),
         ("features", s.mapToJSONString timeline_features)] },
      GetFansByUserID_variables userId n cursor, ?_, rfl, rfl, ?_⟩
    · rw [(GetFansByUserID_request_query s userId cursor n _ hreq).2 w]
      rfl
    · by_cases hc : cursor = "" <;>
        simp [GetFansByUserID_variables, GoMap.get, GoMap.set, List.lookup, hc, hmin]
  · intro req0 h0
    have hreq : GetFollowingByUserID_request s userId n cursor = .ok
        { req0 with RawQuery :=
            [("variables", s.mapToJSONString (GetFollowingByUserID_variables userId n cursor)),
             ("features", s.mapToJSONString timeline_features)] } := by
      simp [GetFollowingByUserID_request, h0, Values.Set]
    refine ⟨{ req0 with RawQuery :=
        [("variables", s.mapToJSONString (GetFollowingByUserID_variables userId n cursor)),
         ("features", s.mapToJSONString timeline_features)] },
      GetFollowingByUserID_variables userId n cursor, ?_, rfl, rfl, ?_⟩
    · rw [(GetFollowingByUserID_request_query s userId cursor n _ hreq).2 w]
      rfl
    · by_cases hc : cursor = "" <;>
        simp [GetFollowingByUserID_variables, GoMap.get, GoMap.set, List.lookup, hc, hmin]

theorem count_is_min_200_witness :
    (∃ (req : Request) (vars : GoMap),
      (GetFansByUserID (exampleScraper (exampleUser "42" "" "alice" []) .null)
        "44196397" 500 "" usedWorld).2.requests = usedWorld.requests ++ [req] ∧
      req.RawQuery =
        [("variables", (exampleScraper (exampleUser "42" "" "alice" []) .null).mapToJSONString vars),
         ("features",
          (exampleScraper (exampleUser "42" "" "alice" []) .null).mapToJSONString timeline_features)] ∧
      vars = GetFansByUserID_variables "44196397" 500 "" ∧
      vars.get "count" = some (.int (min 500 200))) ∧
    (∃ (req : Request) (vars : GoMap),
      (GetFollowingByUserID (exampleScraper (exampleUser "42" "" "alice" []) .null)
        "44196397" 500 "" usedWorld).2.requests = usedWorld.requests ++ [req] ∧
      req.RawQuery =
        [("variables", (exampleScraper (exampleUser "42" "" "alice" []) .null).mapToJSONString vars),
         ("features",
          (exampleScraper (exampleUser "42" "" "alice" []) .null).mapToJSONString timeline_features)] ∧
      vars = GetFollowingByUserID_variables "44196397" 500 "" ∧
      vars.get "count" = some (.int (min 500 200))) :=
  ⟨(count_is_min_200 (exampleScraper (exampleUser "42" "" "alice" []) .null)
      "44196397" "" 500 usedWorld).1 _ rfl,
   (count_is_min_200 (exampleScraper (exampleUser "42" "" "alice" []) .null)
      "44196397" "" 500 usedWorld).2 _ rfl⟩

/-- C6: for the cursor `1683|1682` the variables of `GetFansByUserID` hold that string under
`cursor`, but those of `GetFollowingByUserID` hold the 64-bit integer 0; for the cursor `123`
they hold the integer 123, not the string. -/
theorem GetFollowingByUserID_cursor_converted :
    (GetFansByUserID_variables "44196397" 20 "1683|1682").get "cursor" =
      some (.string "1683|1682") ∧
    (GetFollowingByUserID_variables "44196397" 20 "1683|1682").get "cursor" =
      some (.int64 0) ∧
    (GetFollowingByUserID_variables "44196397" 20 "123").get "cursor" = some (.int64 123) := by
  decide

/-- C7: whenever `newRequest` gives a request, the request that `GetFansByUserID` (and
likewise `GetFollowingByUserID`) hands to the transport carries as its `variables` parameter the
encoding of a map that has a `cursor` key if and only if the cursor passed by the caller is not
the empty string; for the empty cursor the map has no such key and no value under it. -/
theorem cursor_key_iff_nonempty (s : Scraper) (userId cursor : String) (n : Int) (w : World) :
    (∀ req0 : Request,
      s.newRequest "GET" "https://twitter.com/i/api/graphql/3_7xfjmh897x8h_n6QBqTA/Followers" =
        .ok req0 →
      ∃ (req : Request) (vars : GoMap),
        (GetFansByUserID s userId n cursor w).2.requests = w.requests ++ [req] ∧
        req.RawQuery = [("variables", s.mapToJSONString vars),
                        ("features", s.mapToJSONString timeline_features)] ∧
        vars = GetFansByUserID_variables userId n cursor ∧
        ("cursor" ∈ vars.map Prod.fst ↔ cursor ≠ "") ∧
        (cursor = "" → vars.get "cursor" = none)) ∧
    (∀ req0 : Request,
      s.newRequest "GET" "https://twitter.com/i/api/graphql/g5P4cbXR4ta4oCeE7y2vLQ/Following" =
        .ok req0 →
      ∃ (req : Request) (vars : GoMap),
        (GetFollowingByUserID s userId n cursor w).2.requests = w.requests ++ [req] ∧
        req.RawQuery = [("variables", s.mapToJSONString vars),
                        ("features", s.mapToJSONString timeline_features)] ∧
        vars = GetFollowingByUserID_variables userId n cursor ∧
        ("cursor" ∈ vars.map Prod.fst ↔ cursor ≠ "") ∧
        (cursor = "" → vars.get "cursor" = none)) := by
  constructor
  · intro req0 h0
    have hreq : GetFansByUserID_request s userId n cursor = .ok
        { req0 with RawQuery :=
            [("variables", s.mapToJSONString (GetFansByUserID_variables userId n cursor)),
             ("features", s.mapToJSONString timeline_features)] } := by
      simp [GetFansByUserID_request, h0, Values.Set]
    refine ⟨{ req0 with RawQuery :=
        [("variables", s.mapToJSONString (GetFansByUserID_variables userId n cursor)),
         ("features", s.mapToJSONString timeline_features)] },
      GetFansByUserID_variables userId n cursor, ?_, rfl, rfl, ?_, ?_⟩
    · rw [(GetFansByUserID_request_query s userId cursor n _ hreq).2 w]
      rfl
    · by_cases hc : cursor = "" <;>
        simp [GetFansByUserID_variables, GoMap.set, hc]
    · intro hc
      simp [GetFansByUserID_variables, GoMap.get, List.lookup, hc]
  · intro req0 h0
    have hreq : GetFollowingByUserID_request s userId n cursor = .ok
        { req0 with RawQuery :=
            [("variables", s.mapToJSONString (GetFollowingByUserID_variables userId n cursor)),
             ("features", s.mapToJSONString timeline_features)] } := by
      simp [GetFollowingByUserID_request, h0, Values.Set]
    refine ⟨{ req0 with RawQuery :=
        [("variables", s.mapToJSONString (GetFollowingByUserID_variables userId n cursor)),
         ("features", s.mapToJSONString timeline_features)] },
      GetFollowingByUserID_variables userId n cursor, ?_, rfl, rfl, ?_, ?_⟩
    · rw [(GetFollowingByUserID_request_query s userId cursor n _ hreq).2 w]
      rfl
    · by_cases hc : cursor = "" <;>
        simp [GetFollowingByUserID_variables, GoMap.set, hc]
    · intro hc
      simp [GetFollowingByUserID_variables, GoMap.get, List.lookup, hc]

theorem cursor_key_iff_nonempty_witness :
    (∃ (req : Request) (vars : GoMap),
      (GetFansByUserID (exampleScraper (exampleUser "42" "" "alice" []) .null)
        "44196397" 20 "" usedWorld).2.requests = usedWorld.requests ++ [req] ∧
      req.RawQuery =
        [("variables", (exampleScraper (exampleUser "42" "" "alice" []) .null).mapToJSONString vars),
         ("features",
          (exampleScraper (exampleUser "42" "" "alice" []) .null).mapToJSONString timeline_features)] ∧
      vars = GetFansByUserID_variables "44196397" 20 "" ∧
      ("cursor" ∈ vars.map Prod.fst ↔ ("" : String) ≠ "") ∧
      (("" : String) = "" → vars.get "cursor" = none)) ∧
    (∃ (req : Request) (vars : GoMap),
      (GetFollowingByUserID (exampleScraper (exampleUser "42" "" "alice" []) .null)
        "44196397" 20 "1683" usedWorld).2.requests = usedWorld.requests ++ [req] ∧
      req.RawQuery =
        [("variables", (exampleScraper (exampleUser "42" "" "alice" []) .null).mapToJSONString vars),
         ("features",
          (exampleScraper (exampleUser "42" "" "alice" []) .null).mapToJSONString timeline_features)] ∧
      vars = GetFollowingByUserID_variables "44196397" 20 "1683" ∧
      ("cursor" ∈ vars.map Prod.fst ↔ ("1683" : String) ≠ "") ∧
      (("1683" : String) = "" → vars.get "cursor" = none)) :=
  ⟨(cursor_key_iff_nonempty (exampleScraper (exampleUser "42" "" "alice" []) .null)
      "44196397" "" 20 usedWorld).1 _ rfl,
   (cursor_key_iff_nonempty (exampleScraper (exampleUser "42" "" "alice" []) .null)
      "44196397" "1683" 20 usedWorld).2 _ rfl⟩

/-- C8: if `GetUserIDByScreenName u` succeeds with id `i`, then `u` is cached with `i` in the
resulting state, and the call that follows returns `i` and leaves the state, request log
included, untouched, whatever scraper (and so whatever transport) it is made with: the answer
comes from the cache and not from a profile lookup. The first call hands at most one request to
the transport, so the two calls together make at most one. -/
theorem GetUserIDByScreenName_second_call_cached (s : Scraper) (u : String) (w w1 : World)
    (i : String) (h : GetUserIDByScreenName s u w = (.ok i, w1)) :
    syncMap_Load w1.cacheIDs u = some i ∧
    (∀ s2 : Scraper, GetUserIDByScreenName s2 u w1 = (.ok i, w1)) ∧
    w1.requests.length ≤ w.requests.length + 1 ∧
    (GetUserIDByScreenName s u w1).2.requests.length ≤ w.requests.length + 1 := by
  have key : syncMap_Load w1.cacheIDs u = some i ∧
      w1.requests.length ≤ w.requests.length + 1 := by
    unfold GetUserIDByScreenName at h
    cases hL : syncMap_Load w.cacheIDs u with
    | some id =>
      rw [hL] at h
      simp only [Prod.mk.injEq, Except.ok.injEq] at h
      obtain ⟨hi, hw⟩ := h
      subst hi hw
      exact ⟨hL, by omega⟩
    | none =>
      rw [hL] at h
      obtain ⟨req, -, hworld⟩ := GetProfile_world s u w
      cases hG : GetProfile s u w with
      | mk r w2 =>
        rw [hG] at h hworld
        cases r with
        | error err => simp at h
        | ok profile =>
          simp only [Prod.mk.injEq, Except.ok.injEq] at h
          obtain ⟨hi, hw⟩ := h
          subst hi hw
          simp only at hworld
          exact ⟨syncMap_Load_Store _ _ _, by simp [hworld, World.called]⟩
  have hit : ∀ s2 : Scraper, GetUserIDByScreenName s2 u w1 = (.ok i, w1) := by
    intro s2
    unfold GetUserIDByScreenName
    rw [key.1]
  exact ⟨key.1, hit, key.2, by rw [hit s]; exact key.2⟩

theorem GetUserIDByScreenName_second_call_cached_witness :
    syncMap_Load
      (GetUserIDByScreenName (exampleScraper (exampleUser "42" "" "alice" []) .null) "alice"
        usedWorld).2.cacheIDs "alice" = some "42" ∧
    (∀ s2 : Scraper,
      GetUserIDByScreenName s2 "alice"
        (GetUserIDByScreenName (exampleScraper (exampleUser "42" "" "alice" []) .null) "alice"
          usedWorld).2 =
      (.ok "42",
        (GetUserIDByScreenName (exampleScraper (exampleUser "42" "" "alice" []) .null) "alice"
          usedWorld).2)) ∧
    (GetUserIDByScreenName (exampleScraper (exampleUser "42" "" "alice" []) .null) "alice"
      usedWorld).2.requests.length ≤ usedWorld.requests.length + 1 ∧
    (GetUserIDByScreenName (exampleScraper (exampleUser "42" "" "alice" []) .null) "alice"
        (GetUserIDByScreenName (exampleScraper (exampleUser "42" "" "alice" []) .null) "alice"
          usedWorld).2).2.requests.length ≤ usedWorld.requests.length + 1 :=
  GetUserIDByScreenName_second_call_cached
    (exampleScraper (exampleUser "42" "" "alice" []) .null) "alice" usedWorld _ "42" rfl

/-- C9: if `GetUserIDByScreenName u` fails, the cache is exactly what it was before the call,
`u` is still not cached, and the call that follows hands the `UserByScreenName` request for `u`
to the transport again. -/
theorem GetUserIDByScreenName_failure_not_cached (s : Scraper) (u : String) (w w1 : World)
    (err : Error) (h : GetUserIDByScreenName s u w = (.error err, w1)) :
    w1.cacheIDs = w.cacheIDs ∧
    syncMap_Load w1.cacheIDs u = none ∧
    ∃ req, GetProfile_request s u = .ok req ∧
      (GetUserIDByScreenName s u w1).2.requests = w1.requests ++ [req] := by
  unfold GetUserIDByScreenName at h
  cases hL : syncMap_Load w.cacheIDs u with
  | some id =>
    rw [hL] at h
    simp at h
  | none =>
    rw [hL] at h
    obtain ⟨req, hreq, hworld⟩ := GetProfile_world s u w
    cases hG : GetProfile s u w with
    | mk r w2 =>
      rw [hG] at h hworld
      cases r with
      | ok profile => simp at h
      | error e2 =>
        simp only [Prod.mk.injEq, Except.error.injEq] at h
        obtain ⟨-, hw⟩ := h
        subst hw
        simp only at hworld
        have hcache : w2.cacheIDs = w.cacheIDs := by rw [hworld]; rfl
        refine ⟨hcache, by rw [hcache]; exact hL, ?_⟩
        obtain ⟨req2, hreq2, hworld2⟩ := GetProfile_world s u w2
        refine ⟨req2, hreq2, ?_⟩
        unfold GetUserIDByScreenName
        rw [hcache, hL]
        cases hG2 : GetProfile s u w2 with
        | mk r2 w3 =>
          rw [hG2] at hworld2
          simp only at hworld2
          cases r2 <;> simp [hworld2, World.called]

theorem GetUserIDByScreenName_failure_not_cached_witness :
    (GetUserIDByScreenName (exampleScraper (exampleUser "42" "" "alice" []) .null) "alice"
        freshWorld).2.cacheIDs = freshWorld.cacheIDs ∧
    syncMap_Load
      (GetUserIDByScreenName (exampleScraper (exampleUser "42" "" "alice" []) .null) "alice"
        freshWorld).2.cacheIDs "alice" = none ∧
    ∃ req, GetProfile_request (exampleScraper (exampleUser "42" "" "alice" []) .null) "alice" =
        .ok req ∧
      (GetUserIDByScreenName (exampleScraper (exampleUser "42" "" "alice" []) .null) "alice"
        (GetUserIDByScreenName (exampleScraper (exampleUser "42" "" "alice" []) .null) "alice"
          freshWorld).2).2.requests =
      (GetUserIDByScreenName (exampleScraper (exampleUser "42" "" "alice" []) .null) "alice"
        freshWorld).2.requests ++ [req] :=
  GetUserIDByScreenName_failure_not_cached
    (exampleScraper (exampleUser "42" "" "alice" []) .null) "alice" freshWorld _ "timeout" rfl

/-- C10: at a response whose `rest_id` is `42` and whose legacy payload carries `id_str` `99`,
the legacy record `GetProfileByUserId` hands to `parseProfile` has `IDStr` `99`, while the one
`GetProfile` hands over at the corresponding decoded response has `IDStr` `42`. -/
theorem GetProfileByUserId_legacy_id_overwritten :
    Any_ToString (jsoniter_Get (exampleResult [] "42" "99" "alice")
      ["data", "user", "result", "rest_id"]) = "42" ∧
    GetProfileByUserId_legacy "42" (exampleResult [] "42" "99" "alice") =
      .ok { IDStr := "99", ScreenName := "alice", other := [] } ∧
    (GetProfileByUserId (exampleScraper (exampleUser "42" "99" "alice" [])
        (exampleResult [] "42" "99" "alice")) "42" usedWorld).1 =
      .ok (exampleParseProfile { IDStr := "99", ScreenName := "alice", other := [] }) ∧
    GetProfile_legacy "alice" (exampleUser "42" "99" "alice" []) =
      .ok { IDStr := "42", ScreenName := "alice", other := [] } :=
  ⟨rfl, rfl, rfl, rfl⟩

end TwitterScraper
